import Mathlib

/-!
Shallow embedding of the NBFC MCP server's underwriting core
(`src/main.py`): the EMI calculator `compute_emi`, the underwriting
decision procedure inlined in `call_underwrite_loan`, and the static
customer directory `CUSTOMERS`.  Python's exact (unbounded) integers are
modelled as `Int`; float arithmetic on the EMI path is modelled as exact
rational arithmetic over `Rat`.  Python truthiness of optional fields
(`None`, `0`, and the empty string are falsy) is modelled explicitly.
-/

/-- A customer record, one entry of the `CUSTOMERS` dictionary
(main.py lines 46-57). -/
structure Customer where
  customer_id : String
  name : String
  age : Int
  city : String
  phone : String
  email : String
  pre_approved_limit : Int
  salary_monthly : Int
  credit_score : Int
deriving DecidableEq, Repr

/-- The request model `UnderwriteInput` (main.py lines 88-94).
`salary_provided` and `salary_slip_resource` default to `None`,
modelled as `Option`. -/
structure UnderwriteInput where
  customer_id : String
  requested_amount : Int
  tenure_months : Int := 36
  annual_rate : Rat := 12.0
  salary_provided : Option Int := none
  salary_slip_resource : Option String := none
deriving DecidableEq, Repr

/-- The JSON object returned in the `result` field by
`call_underwrite_loan`: always a `decision` and a `reason`, plus the
branch-specific payload key (`credit_score`, `emi` or `pre_limit`),
absent keys modelled as `none`. -/
structure UnderwriteResult where
  decision : String
  reason : String
  credit_score : Option Int := none
  emi : Option Rat := none
  pre_limit : Option Int := none
deriving DecidableEq, Repr

/-- Python truthiness of an optional int field: `None` and `0` are
falsy, every other integer is truthy. -/
def pyTruthyInt : Option Int → Bool
  | none => false
  | some v => v != 0

/-- Python truthiness of an optional string field: `None` and the empty
string are falsy. -/
def pyTruthyStr : Option String → Bool
  | none => false
  | some s => !s.isEmpty

/-- Python's `x or y` for an optional int `x`: yields `x`'s value when
truthy, else `y` (main.py line 170,
`data.salary_provided or cust.get("salary_monthly", 0)`). -/
def pyOrInt (x : Option Int) (y : Int) : Int :=
  match x with
  | some v => if v != 0 then v else y
  | none => y

/-- `compute_emi` (main.py lines 138-142): monthly decimal rate
`r = annual_rate / 12 / 100`; straight-line division when `r == 0`,
otherwise the standard amortization formula.  `n_months` is a Python
`int`, so the power is `zpow`. -/
def compute_emi (P annual_rate : Rat) (n_months : Int) : Rat :=
  let r := annual_rate / 12.0 / 100.0
  if r = 0 then P / (n_months : Rat)
  else (P * r * (1 + r) ^ n_months) / ((1 + r) ^ n_months - 1)

/-- The underwriting decision procedure: body of `call_underwrite_loan`
after the customer lookup (main.py lines 153-178). -/
def underwrite (cust : Customer) (data : UnderwriteInput) : UnderwriteResult :=
  let score := cust.credit_score
  let pre_limit := cust.pre_approved_limit
  let requested := data.requested_amount
  let tenure := data.tenure_months
  let rate := data.annual_rate
  if score < 700 then
    { decision := "reject", reason := "credit_score_below_700",
      credit_score := some score }
  else if requested ≤ pre_limit then
    { decision := "approve",
      emi := some (compute_emi (requested : Rat) rate tenure),
      reason := "within_pre_approved_limit" }
  else if requested ≤ 2 * pre_limit then
    if !pyTruthyStr data.salary_slip_resource && !pyTruthyInt data.salary_provided then
      { decision := "require_salary_slip", reason := "salary_slip_required" }
    else
      let salary := pyOrInt data.salary_provided cust.salary_monthly
      let emi := compute_emi (requested : Rat) rate tenure
      if emi ≤ 0.5 * (salary : Rat) then
        { decision := "approve", emi := some emi,
          reason := "emi_within_50pct_salary" }
      else
        { decision := "reject", reason := "emi_exceeds_50pct_salary",
          emi := some emi }
  else
    { decision := "reject", reason := "amount_exceeds_2x_pre_approved",
      pre_limit := some pre_limit }

/-- The mock customer directory `CUSTOMERS` (main.py lines 46-57),
as an association list keyed by customer id. -/
def CUSTOMERS : List (String × Customer) :=
  [("CUST001", ⟨"CUST001", "Asha Verma", 32, "Pune", "9810000001", "asha@example.com", 300000, 60000, 745⟩),
   ("CUST002", ⟨"CUST002", "Rahul Sharma", 29, "Delhi", "9810000002", "rahul@example.com", 200000, 45000, 712⟩),
   ("CUST003", ⟨"CUST003", "Sneha Iyer", 35, "Bengaluru", "9810000003", "sneha@example.com", 400000, 85000, 780⟩),
   ("CUST004", ⟨"CUST004", "Vikram Singh", 40, "Lucknow", "9810000004", "vikram@example.com", 150000, 30000, 690⟩),
   ("CUST005", ⟨"CUST005", "Nisha Patel", 27, "Ahmedabad", "9810000005", "nisha@example.com", 250000, 52000, 710⟩),
   ("CUST006", ⟨"CUST006", "Arjun Rao", 31, "Hyderabad", "9810000006", "arjun@example.com", 350000, 70000, 760⟩),
   ("CUST007", ⟨"CUST007", "Meera Desai", 30, "Surat", "9810000007", "meera@example.com", 180000, 40000, 695⟩),
   ("CUST008", ⟨"CUST008", "Karan Mehta", 33, "Mumbai", "9810000008", "karan@example.com", 320000, 65000, 735⟩),
   ("CUST009", ⟨"CUST009", "Priya Nair", 28, "Kochi", "9810000009", "priya@example.com", 280000, 48000, 725⟩),
   ("CUST010", ⟨"CUST010", "Sourav Ghosh", 36, "Kolkata", "9810000010", "sourav@example.com", 500000, 90000, 790⟩)]

/-- `CUSTOMERS.get(cid)`: exact-key lookup in the directory. -/
def getCustomer (cid : String) : Option Customer :=
  (CUSTOMERS.find? (fun p => p.1 == cid)).map (fun p => p.2)

/-- The endpoint `call_underwrite_loan` (main.py lines 145-178): a 404
`HTTPException` when the customer id is unknown, otherwise the normal
`{"status": "ok", "result": ...}` value, modelled as `Except` with the
HTTP status code as the error. -/
def call_underwrite_loan (data : UnderwriteInput) : Except Nat UnderwriteResult :=
  match getCustomer data.customer_id with
  | none => Except.error 404
  | some cust => Except.ok (underwrite cust data)

/-- Claim C1: a customer with `credit_score < 700` is rejected with
reason `credit_score_below_700` and the score in the payload, for every
loan request whatsoever (the credit-floor rule precedes the amount and
affordability rules). -/
theorem underwrite_credit_floor (cust : Customer) (data : UnderwriteInput)
    (h : cust.credit_score < 700) :
    underwrite cust data =
      { decision := "reject", reason := "credit_score_below_700",
        credit_score := some cust.credit_score } := by
  unfold underwrite
  rw [if_pos h]

theorem underwrite_credit_floor_witness :
    (690 : Int) < 700 ∧
      underwrite
        ⟨"CUST004", "Vikram Singh", 40, "Lucknow", "9810000004", "vikram@example.com", 150000, 30000, 690⟩
        { customer_id := "CUST004", requested_amount := 0 } =
      { decision := "reject", reason := "credit_score_below_700",
        credit_score := some 690 } :=
  ⟨by decide, underwrite_credit_floor _ _ (by decide)⟩

/-- Claim C3: with `credit_score >= 700` and
`requested_amount <= pre_approved_limit` (boundary included), the
request is approved with reason `within_pre_approved_limit` and the EMI
computed from the request's rate and tenure in the payload; the result
does not consult any salary field. -/
theorem underwrite_within_limit (cust : Customer) (data : UnderwriteInput)
    (h700 : 700 ≤ cust.credit_score)
    (hle : data.requested_amount ≤ cust.pre_approved_limit) :
    underwrite cust data =
      { decision := "approve",
        reason := "within_pre_approved_limit",
        emi := some (compute_emi (data.requested_amount : Rat)
                      data.annual_rate data.tenure_months) } := by
  unfold underwrite
  rw [if_neg (not_lt.mpr h700), if_pos hle]

theorem underwrite_within_limit_witness :
    (700 : Int) ≤ 745 ∧ (300000 : Int) ≤ 300000 ∧
      underwrite
        ⟨"CUST001", "Asha Verma", 32, "Pune", "9810000001", "asha@example.com", 300000, 60000, 745⟩
        { customer_id := "CUST001", requested_amount := 300000, annual_rate := 0 } =
      { decision := "approve", reason := "within_pre_approved_limit",
        emi := some (compute_emi 300000 0 36) } :=
  ⟨by decide, by decide, underwrite_within_limit _ _ (by decide) (by decide)⟩

/-- Claim C4: with `credit_score >= 700` and
`pre_approved_limit < requested_amount <= 2 * pre_approved_limit`
(the boundary `requested_amount = 2 * pre_approved_limit` lands in this
bracket), when neither salary evidence field is present (Python-truthy),
the outcome is `require_salary_slip` with reason `salary_slip_required`
and no EMI in the payload. -/
theorem underwrite_salary_slip_required (cust : Customer) (data : UnderwriteInput)
    (h700 : 700 ≤ cust.credit_score)
    (hlo : cust.pre_approved_limit < data.requested_amount)
    (hhi : data.requested_amount ≤ 2 * cust.pre_approved_limit)
    (hslip : pyTruthyStr data.salary_slip_resource = false)
    (hsal : pyTruthyInt data.salary_provided = false) :
    underwrite cust data =
      { decision := "require_salary_slip", reason := "salary_slip_required",
        emi := none } := by
  unfold underwrite
  rw [if_neg (not_lt.mpr h700), if_neg (not_le.mpr hlo), if_pos hhi]
  rw [hslip, hsal]
  rfl

theorem underwrite_salary_slip_required_witness :
    (700 : Int) ≤ 745 ∧ (300000 : Int) < 600000 ∧ (600000 : Int) ≤ 2 * 300000 ∧
      underwrite
        ⟨"CUST001", "Asha Verma", 32, "Pune", "9810000001", "asha@example.com", 300000, 60000, 745⟩
        { customer_id := "CUST001", requested_amount := 600000 } =
      { decision := "require_salary_slip", reason := "salary_slip_required",
        emi := none } :=
  ⟨by decide, by decide, by decide,
    underwrite_salary_slip_required _ _ (by decide) (by decide) (by decide)
      (by decide) (by decide)⟩

/-- Counterexample to claim C5 as stated: with a negative
`pre_approved_limit` (score 700, limit -1, requested -1) the request
satisfies `requested_amount > 2 * pre_approved_limit`, yet the earlier
`requested_amount <= pre_approved_limit` rule fires first and the
request is approved with reason `within_pre_approved_limit`, not
rejected with `amount_exceeds_2x_pre_approved`. -/
theorem underwrite_exceeds_double_limit_cex :
    2 * (Customer.mk "CUSTX" "X" 30 "Pune" "9" "x@example.com" (-1) 10000 700).pre_approved_limit <
      (UnderwriteInput.mk "CUSTX" (-1) 36 0 none none).requested_amount ∧
    (underwrite
        (Customer.mk "CUSTX" "X" 30 "Pune" "9" "x@example.com" (-1) 10000 700)
        (UnderwriteInput.mk "CUSTX" (-1) 36 0 none none)).decision = "approve" ∧
    (underwrite
        (Customer.mk "CUSTX" "X" 30 "Pune" "9" "x@example.com" (-1) 10000 700)
        (UnderwriteInput.mk "CUSTX" (-1) 36 0 none none)).reason ≠
      "amount_exceeds_2x_pre_approved" := by
  refine ⟨by decide, ?_, ?_⟩ <;> decide

/-- Claim C5 (amended): with `credit_score >= 700`, a non-negative
`pre_approved_limit`, and `requested_amount > 2 * pre_approved_limit`,
the request is rejected with reason `amount_exceeds_2x_pre_approved`
and the customer's `pre_approved_limit` in the payload.  (The
non-negativity hypothesis is needed because the within-limit rule is
evaluated first and can capture the request when the limit is
negative.) -/
theorem underwrite_exceeds_double_limit (cust : Customer) (data : UnderwriteInput)
    (h700 : 700 ≤ cust.credit_score)
    (hpre : 0 ≤ cust.pre_approved_limit)
    (hgt : 2 * cust.pre_approved_limit < data.requested_amount) :
    underwrite cust data =
      { decision := "reject", reason := "amount_exceeds_2x_pre_approved",
        pre_limit := some cust.pre_approved_limit } := by
  unfold underwrite
  have hlo : ¬ data.requested_amount ≤ cust.pre_approved_limit := by
    intro h
    have h2 : cust.pre_approved_limit ≤ 2 * cust.pre_approved_limit := by linarith
    exact absurd (le_trans h h2) (not_le.mpr hgt)
  rw [if_neg (not_lt.mpr h700), if_neg hlo, if_neg (not_le.mpr hgt)]

theorem underwrite_exceeds_double_limit_witness :
    (700 : Int) ≤ 745 ∧ 2 * (300000 : Int) < 700000 ∧
      underwrite
        ⟨"CUST001", "Asha Verma", 32, "Pune", "9810000001", "asha@example.com", 300000, 60000, 745⟩
        { customer_id := "CUST001", requested_amount := 700000 } =
      { decision := "reject", reason := "amount_exceeds_2x_pre_approved",
        pre_limit := some 300000 } :=
  ⟨by decide, by decide,
    underwrite_exceeds_double_limit
      ⟨"CUST001", "Asha Verma", 32, "Pune", "9810000001", "asha@example.com", 300000, 60000, 745⟩
      { customer_id := "CUST001", requested_amount := 700000 }
      (by decide) (by decide) (by decide)⟩

/-- Claim C10: there is no positivity check on `requested_amount`: for
a customer with `credit_score >= 700` and a non-negative pre-approved
limit, a zero or negative requested amount satisfies
`requested_amount <= pre_approved_limit` and is approved with reason
`within_pre_approved_limit`, the EMI computed on the non-positive
principal. -/
theorem underwrite_nonpositive_amount (cust : Customer) (data : UnderwriteInput)
    (h700 : 700 ≤ cust.credit_score)
    (hneg : data.requested_amount ≤ 0)
    (hpre : 0 ≤ cust.pre_approved_limit) :
    data.requested_amount ≤ cust.pre_approved_limit ∧
    underwrite cust data =
      { decision := "approve",
        reason := "within_pre_approved_limit",
        emi := some (compute_emi (data.requested_amount : Rat)
                      data.annual_rate data.tenure_months) } := by
  have hle : data.requested_amount ≤ cust.pre_approved_limit := le_trans hneg hpre
  refine ⟨hle, ?_⟩
  unfold underwrite
  rw [if_neg (not_lt.mpr h700), if_pos hle]

theorem underwrite_nonpositive_amount_witness :
    (700 : Int) ≤ 745 ∧ (-5000 : Int) ≤ 0 ∧ (0 : Int) ≤ 300000 ∧
      ((-5000 : Int) ≤ 300000 ∧
        underwrite
          ⟨"CUST001", "Asha Verma", 32, "Pune", "9810000001", "asha@example.com", 300000, 60000, 745⟩
          { customer_id := "CUST001", requested_amount := -5000 } =
        { decision := "approve", reason := "within_pre_approved_limit",
          emi := some (compute_emi (-5000) 12.0 36) }) :=
  ⟨by decide, by decide, by decide,
    underwrite_nonpositive_amount
      ⟨"CUST001", "Asha Verma", 32, "Pune", "9810000001", "asha@example.com", 300000, 60000, 745⟩
      { customer_id := "CUST001", requested_amount := -5000 }
      (by decide) (by decide) (by decide)⟩

/-- Claim C2: with `credit_score >= 700`,
`pre_approved_limit < requested_amount <= 2 * pre_approved_limit`, and
salary evidence present (a truthy `salary_slip_resource` or a truthy
`salary_provided`; a `salary_provided` of 0 counts as absent), the
effective salary is `salary_provided` if present and truthy, else the
on-file `salary_monthly`; the EMI is computed, and the outcome is
approve with reason `emi_within_50pct_salary` when
`emi <= 0.5 * effective_salary`, else reject with reason
`emi_exceeds_50pct_salary`, the EMI in the payload either way. -/
theorem underwrite_salary_bracket (cust : Customer) (data : UnderwriteInput)
    (h700 : 700 ≤ cust.credit_score)
    (hlo : cust.pre_approved_limit < data.requested_amount)
    (hhi : data.requested_amount ≤ 2 * cust.pre_approved_limit)
    (hev : pyTruthyStr data.salary_slip_resource = true ∨
           pyTruthyInt data.salary_provided = true) :
    underwrite cust data =
      (let salary : Int :=
        match data.salary_provided with
        | some v => if v ≠ 0 then v else cust.salary_monthly
        | none => cust.salary_monthly
       let emi := compute_emi (data.requested_amount : Rat)
                    data.annual_rate data.tenure_months
       if emi ≤ 0.5 * (salary : Rat) then
         { decision := "approve", emi := some emi,
           reason := "emi_within_50pct_salary" }
       else
         { decision := "reject", reason := "emi_exceeds_50pct_salary",
           emi := some emi }) := by
  unfold underwrite
  rw [if_neg (not_lt.mpr h700), if_neg (not_le.mpr hlo), if_pos hhi]
  have hguard : (!pyTruthyStr data.salary_slip_resource &&
      !pyTruthyInt data.salary_provided) = false := by
    rcases hev with h | h <;> simp [h]
  rw [hguard]
  have hsal : pyOrInt data.salary_provided cust.salary_monthly =
      (match data.salary_provided with
       | some v => if v ≠ 0 then v else cust.salary_monthly
       | none => cust.salary_monthly) := by
    unfold pyOrInt
    cases data.salary_provided with
    | none => rfl
    | some v =>
      by_cases hv : v = 0
      · simp [hv]
      · simp [hv]
  simp only [Bool.false_eq_true, if_false, hsal]

theorem underwrite_salary_bracket_witness :
    (700 : Int) ≤ 745 ∧ (300000 : Int) < 450000 ∧ (450000 : Int) ≤ 2 * 300000 ∧
      (pyTruthyStr (none : Option String) = true ∨
        pyTruthyInt (some (60000 : Int)) = true) ∧
      underwrite
        ⟨"CUST001", "Asha Verma", 32, "Pune", "9810000001", "asha@example.com", 300000, 60000, 745⟩
        { customer_id := "CUST001", requested_amount := 450000, annual_rate := 0,
          salary_provided := some 60000 } =
      (let salary : Int := 60000
       let emi := compute_emi 450000 0 36
       if emi ≤ 0.5 * (salary : Rat) then
         { decision := "approve", emi := some emi,
           reason := "emi_within_50pct_salary" }
       else
         { decision := "reject", reason := "emi_exceeds_50pct_salary",
           emi := some emi }) :=
  ⟨by decide, by decide, by decide, by decide,
    underwrite_salary_bracket
      ⟨"CUST001", "Asha Verma", 32, "Pune", "9810000001", "asha@example.com", 300000, 60000, 745⟩
      { customer_id := "CUST001", requested_amount := 450000, annual_rate := 0,
        salary_provided := some 60000 }
      (by decide) (by decide) (by decide) (Or.inr (by decide))⟩

/-- Claim C7: for a request whose customer id resolves in the directory
(and well-formed tenure `>= 1`), the endpoint returns the normal
`ok` value whose decision is one of `approve`, `reject`,
`require_salary_slip`; for an unknown customer id it fails with a 404
error before the decision procedure runs. -/
theorem call_underwrite_loan_total (data : UnderwriteInput) (cust : Customer)
    (hn : 1 ≤ data.tenure_months) :
    (getCustomer data.customer_id = some cust →
      call_underwrite_loan data = Except.ok (underwrite cust data) ∧
      ((underwrite cust data).decision = "approve" ∨
       (underwrite cust data).decision = "reject" ∨
       (underwrite cust data).decision = "require_salary_slip")) ∧
    (getCustomer data.customer_id = none →
      call_underwrite_loan data = Except.error 404) := by
  constructor
  · intro hfound
    refine ⟨by unfold call_underwrite_loan; rw [hfound], ?_⟩
    unfold underwrite
    by_cases h1 : cust.credit_score < 700
    · simp [h1]
    · by_cases h2 : data.requested_amount ≤ cust.pre_approved_limit
      · simp [h1, h2]
      · by_cases h3 : data.requested_amount ≤ 2 * cust.pre_approved_limit
        · by_cases h4 : (!pyTruthyStr data.salary_slip_resource &&
              !pyTruthyInt data.salary_provided) = true
          · simp [h1, h2, h3, h4]
          · by_cases h5 : compute_emi (data.requested_amount : Rat)
                data.annual_rate data.tenure_months ≤
                0.5 * ((pyOrInt data.salary_provided cust.salary_monthly : Int) : Rat)
            · simp [h1, h2, h3, h4, h5]
            · simp [h1, h2, h3, h4, h5]
        · simp [h1, h2, h3]
  · intro hnone
    unfold call_underwrite_loan
    rw [hnone]

theorem call_underwrite_loan_total_witness :
    (1 : Int) ≤ 36 ∧
      ((getCustomer "CUST001" =
          some ⟨"CUST001", "Asha Verma", 32, "Pune", "9810000001", "asha@example.com", 300000, 60000, 745⟩ →
        call_underwrite_loan { customer_id := "CUST001", requested_amount := 100000, annual_rate := 0 } =
          Except.ok (underwrite
            ⟨"CUST001", "Asha Verma", 32, "Pune", "9810000001", "asha@example.com", 300000, 60000, 745⟩
            { customer_id := "CUST001", requested_amount := 100000, annual_rate := 0 }) ∧
        ((underwrite
            ⟨"CUST001", "Asha Verma", 32, "Pune", "9810000001", "asha@example.com", 300000, 60000, 745⟩
            { customer_id := "CUST001", requested_amount := 100000, annual_rate := 0 }).decision = "approve" ∨
         (underwrite
            ⟨"CUST001", "Asha Verma", 32, "Pune", "9810000001", "asha@example.com", 300000, 60000, 745⟩
            { customer_id := "CUST001", requested_amount := 100000, annual_rate := 0 }).decision = "reject" ∨
         (underwrite
            ⟨"CUST001", "Asha Verma", 32, "Pune", "9810000001", "asha@example.com", 300000, 60000, 745⟩
            { customer_id := "CUST001", requested_amount := 100000, annual_rate := 0 }).decision = "require_salary_slip")) ∧
       (getCustomer "CUST001" = none →
        call_underwrite_loan { customer_id := "CUST001", requested_amount := 100000, annual_rate := 0 } =
          Except.error 404)) :=
  ⟨by decide,
    call_underwrite_loan_total
      { customer_id := "CUST001", requested_amount := 100000, annual_rate := 0 }
      ⟨"CUST001", "Asha Verma", 32, "Pune", "9810000001", "asha@example.com", 300000, 60000, 745⟩
      (by decide)⟩

/-- Claim C9: the decision procedure is deterministic — two invocations
on equal inputs (same customer record, same request) produce equal
outcomes, both at the `underwrite` core and at the endpoint; the
embedding is a pure function of its arguments. -/
theorem underwrite_deterministic (c1 c2 : Customer) (d1 d2 : UnderwriteInput)
    (hc : c1 = c2) (hd : d1 = d2) :
    underwrite c1 d1 = underwrite c2 d2 ∧
    call_underwrite_loan d1 = call_underwrite_loan d2 := by
  subst hc
  subst hd
  exact ⟨rfl, rfl⟩

theorem underwrite_deterministic_witness :
    underwrite
        ⟨"CUST002", "Rahul Sharma", 29, "Delhi", "9810000002", "rahul@example.com", 200000, 45000, 712⟩
        { customer_id := "CUST002", requested_amount := 50000, annual_rate := 0 } =
      underwrite
        ⟨"CUST002", "Rahul Sharma", 29, "Delhi", "9810000002", "rahul@example.com", 200000, 45000, 712⟩
        { customer_id := "CUST002", requested_amount := 50000, annual_rate := 0 } ∧
    call_underwrite_loan { customer_id := "CUST002", requested_amount := 50000, annual_rate := 0 } =
      call_underwrite_loan { customer_id := "CUST002", requested_amount := 50000, annual_rate := 0 } :=
  underwrite_deterministic
    ⟨"CUST002", "Rahul Sharma", 29, "Delhi", "9810000002", "rahul@example.com", 200000, 45000, 712⟩
    ⟨"CUST002", "Rahul Sharma", 29, "Delhi", "9810000002", "rahul@example.com", 200000, 45000, 712⟩
    { customer_id := "CUST002", requested_amount := 50000, annual_rate := 0 }
    { customer_id := "CUST002", requested_amount := 50000, annual_rate := 0 }
    rfl rfl

lemma float_rate_eq (q : Rat) : q / 12.0 / 100.0 = q / 1200 := by
  norm_num
  ring

lemma compute_emi_rate_zero (P : Rat) (n : Int) :
    compute_emi P 0 n = P / (n : Rat) := by
  unfold compute_emi
  rw [if_pos (by norm_num)]

lemma compute_emi_rate_ne_zero (P rate : Rat) (n : Int) (hrate : rate ≠ 0) :
    compute_emi P rate n =
      (P * (rate / 1200) * (1 + rate / 1200) ^ n) / ((1 + rate / 1200) ^ n - 1) := by
  unfold compute_emi
  rw [float_rate_eq]
  rw [if_neg (by positivity)]

lemma emi_inv_geom_sum (r : Rat) (hr : 0 < r) (n : Nat) :
    ∑ k in Finset.range n, ((1 + r)⁻¹) ^ (k + 1) =
      ((1 + r) ^ n - 1) / (r * (1 + r) ^ n) := by
  have hA : (0 : Rat) < 1 + r := by linarith
  have hA0 : (1 + r : Rat) ≠ 0 := ne_of_gt hA
  have hAn : ((1 + r : Rat) ^ n) ≠ 0 := pow_ne_zero _ hA0
  have hr0 : r ≠ 0 := ne_of_gt hr
  have hAi : ((1 + r : Rat))⁻¹ ≠ 1 := by
    intro h
    have h1 : (1 + r : Rat) = 1 := inv_eq_one.mp h
    linarith
  have hd : ((1 + r : Rat))⁻¹ - 1 ≠ 0 := sub_ne_zero.mpr hAi
  have hstep : ∀ k ∈ Finset.range n,
      ((1 + r : Rat)⁻¹) ^ (k + 1) = (1 + r)⁻¹ * ((1 + r)⁻¹) ^ k := by
    intro k _
    rw [pow_succ, mul_comm]
  rw [Finset.sum_congr rfl hstep, ← Finset.mul_sum, geom_sum_eq hAi, inv_pow]
  field_simp
  ring

lemma compute_emi_eq_div_sum (P rate : Rat) (hrate : 0 < rate) (n : Nat) :
    compute_emi P rate (n : Int) =
      P / ∑ k in Finset.range n, ((1 + rate / 1200)⁻¹) ^ (k + 1) := by
  have hr : 0 < rate / 1200 := by positivity
  rw [compute_emi_rate_ne_zero P rate _ (ne_of_gt hrate), emi_inv_geom_sum _ hr n,
    zpow_natCast]
  have hA : (0 : Rat) < 1 + rate / 1200 := by linarith
  have hA0 : (1 + rate / 1200 : Rat) ≠ 0 := ne_of_gt hA
  have hAn : ((1 + rate / 1200 : Rat) ^ n) ≠ 0 := pow_ne_zero _ hA0
  rw [div_div_eq_mul_div]
  by_cases hn0 : ((1 + rate / 1200 : Rat) ^ n - 1) = 0
  · rw [hn0]
    simp
  · field_simp
    ring

/-- Claim C6: for tenure `n >= 1`, `compute_emi` returns exactly
`P / n` when the annual rate is 0, and otherwise exactly
`P * r * (1+r)^n / ((1+r)^n - 1)` with `r = rate / 12 / 100`; the result
is non-negative for non-negative `P` and rate.  The arithmetic is exact
division — no rounding is applied. -/
theorem compute_emi_formula (P rate : Rat) (n : Int) (hn : 1 ≤ n) :
    (rate = 0 → compute_emi P rate n = P / (n : Rat)) ∧
    (rate ≠ 0 → compute_emi P rate n =
      (P * (rate / 12 / 100) * (1 + rate / 12 / 100) ^ n) /
        ((1 + rate / 12 / 100) ^ n - 1)) ∧
    (0 ≤ P → 0 ≤ rate → 0 ≤ compute_emi P rate n) := by
  have hconv : rate / 12 / 100 = rate / 1200 := by ring
  refine ⟨?_, ?_, ?_⟩
  · rintro rfl
    exact compute_emi_rate_zero P n
  · intro h
    rw [compute_emi_rate_ne_zero P rate n h, hconv]
  · intro hP hrate
    rcases eq_or_lt_of_le hrate with h0 | hpos
    · rw [← h0, compute_emi_rate_zero]
      have hn0 : (0 : Rat) ≤ (n : Rat) := by
        have : (0 : Int) ≤ n := by omega
        exact_mod_cast this
      exact div_nonneg hP hn0
    · rw [compute_emi_rate_ne_zero P rate n (ne_of_gt hpos)]
      have hr : 0 < rate / 1200 := by positivity
      have hA1 : 1 < 1 + rate / 1200 := by linarith
      have hAn1 : 1 < (1 + rate / 1200) ^ n := one_lt_zpow₀ hA1 (by omega)
      apply div_nonneg
      · apply mul_nonneg (mul_nonneg hP (le_of_lt hr))
        linarith
      · linarith

theorem compute_emi_formula_witness :
    (1 : Int) ≤ 36 ∧
      (((12 : Rat) = 0 → compute_emi 1000 12 36 = 1000 / ((36 : Int) : Rat)) ∧
       ((12 : Rat) ≠ 0 → compute_emi 1000 12 36 =
         (1000 * ((12 : Rat) / 12 / 100) * (1 + (12 : Rat) / 12 / 100) ^ (36 : Int)) /
           ((1 + (12 : Rat) / 12 / 100) ^ (36 : Int) - 1)) ∧
       ((0 : Rat) ≤ 1000 → (0 : Rat) ≤ 12 → 0 ≤ compute_emi 1000 12 36)) :=
  ⟨by decide, compute_emi_formula 1000 12 36 (by decide)⟩

/-- Claim C8: for `P > 0`, `rate > 0` and tenure `n >= 1`,
`compute_emi` is strictly increasing in the rate (holding `P`, `n`
fixed) and strictly decreasing in the tenure (holding `P`, rate
fixed). -/
theorem compute_emi_monotone (P rate rate2 : Rat) (n n2 : Int)
    (hP : 0 < P) (hr : 0 < rate) (hn : 1 ≤ n) :
    (rate < rate2 → compute_emi P rate n < compute_emi P rate2 n) ∧
    (n < n2 → compute_emi P rate n2 < compute_emi P rate n) := by
  constructor
  · intro hlt
    lift n to Nat using (by omega : (0 : Int) ≤ n) with m
    have hm : 1 ≤ m := by exact_mod_cast hn
    have hr2 : 0 < rate2 := lt_trans hr hlt
    rw [compute_emi_eq_div_sum P rate hr m, compute_emi_eq_div_sum P rate2 hr2 m]
    have hne : (Finset.range m).Nonempty := Finset.nonempty_range_iff.mpr (by omega)
    have hS2pos : 0 < ∑ k in Finset.range m, ((1 + rate2 / 1200)⁻¹) ^ (k + 1) := by
      apply Finset.sum_pos _ hne
      intro k _
      have h2 : (0 : Rat) < 1 + rate2 / 1200 := by positivity
      positivity
    have hlt' : ∑ k in Finset.range m, ((1 + rate2 / 1200)⁻¹) ^ (k + 1) <
        ∑ k in Finset.range m, ((1 + rate / 1200)⁻¹) ^ (k + 1) := by
      apply Finset.sum_lt_sum_of_nonempty hne
      intro k _
      have h1 : (0 : Rat) < 1 + rate / 1200 := by positivity
      have h2 : (1 + rate2 / 1200 : Rat)⁻¹ < (1 + rate / 1200)⁻¹ := by
        apply inv_strictAnti₀ h1
        have : rate / 1200 < rate2 / 1200 := by linarith
        linarith
      exact pow_lt_pow_left₀ h2 (by positivity) (Nat.succ_ne_zero k)
    exact div_lt_div_of_pos_left hP hS2pos hlt'
  · intro hlt
    lift n to Nat using (by omega : (0 : Int) ≤ n) with m
    lift n2 to Nat using (by omega : (0 : Int) ≤ n2) with m2
    have hm : 1 ≤ m := by exact_mod_cast hn
    have hm2 : m < m2 := by exact_mod_cast hlt
    rw [compute_emi_eq_div_sum P rate hr m, compute_emi_eq_div_sum P rate hr m2]
    have hpos : ∀ k : Nat, (0 : Rat) < ((1 + rate / 1200)⁻¹) ^ (k + 1) := by
      intro k
      have h1 : (0 : Rat) < 1 + rate / 1200 := by positivity
      positivity
    have hS1pos : 0 < ∑ k in Finset.range m, ((1 + rate / 1200)⁻¹) ^ (k + 1) :=
      Finset.sum_pos (fun k _ => hpos k) (Finset.nonempty_range_iff.mpr (by omega))
    have hlt' : ∑ k in Finset.range m, ((1 + rate / 1200)⁻¹) ^ (k + 1) <
        ∑ k in Finset.range m2, ((1 + rate / 1200)⁻¹) ^ (k + 1) := by
      apply Finset.sum_lt_sum_of_subset (Finset.range_subset.mpr (le_of_lt hm2))
        (Finset.mem_range.mpr hm2) (by simp) (hpos m)
      intro j _ _
      exact le_of_lt (hpos j)
    exact div_lt_div_of_pos_left hP hS1pos hlt'

theorem compute_emi_monotone_witness :
    (0 : Rat) < 1000 ∧ (0 : Rat) < 12 ∧ (1 : Int) ≤ 12 ∧
      (((12 : Rat) < 24 → compute_emi 1000 12 12 < compute_emi 1000 24 12) ∧
       ((12 : Int) < 24 → compute_emi 1000 12 24 < compute_emi 1000 12 12)) :=
  ⟨by decide, by decide, by decide,
    compute_emi_monotone 1000 12 24 12 24 (by decide) (by decide) (by decide)⟩
